import Mathlib

/-!
Verification of the analysis-workbook parser of the geochem-dataset
repository.  The source keeps several revisions of the parser side by side:

* `geochem_dataset/excel/interfaces/bases/analysis.py`
  (`AnalysisExcelWorksheetInterface`, pandas based) — called "bases" below;
* `geochem_dataset/excel/interfaces.py`
  (`AnalysisDatasetWorkbook` / `AnalysisDatasetWorksheet`, numpy based) —
  called "iface" below;
* `geochem_dataset/excel/interfaces/__init__.py`
  (`AnalysisExcelWorksheetInterface`, pandas based) — called "init" below;
* `geochem_dataset/excel/utils.py` (`Worksheet.crop_out_empty_rows_and_columns`).

Cells are modelled as `Option String`: `none` is an absent value (Python
`None` or `NaN` after normalization: values are stripped and empty strings
become absent), `some s` a non-empty trimmed text value.  Grids containing a
whitespace-only raw cell are outside the model (such a cell becomes `NaN`
while `None` stays `None`, and the two behave differently in a few Python
checks); every concrete grid used below has only absent or genuinely
non-empty cells, where the two-state model is exact.

Python runtime errors other than the parser's own `IntegrityError`
(`NameError`, `IndexError`, `TypeError`, failed `assert`) are modelled by
`none` / a dedicated `crash` state.
-/

namespace Geochem

/-- A worksheet cell after normalization. -/
abbrev Cell := Option String

/-- A worksheet grid, row major; row 0 is the header row. -/
abbrev Grid := List (List Cell)

/-- Cell of `g` at (row `r`, column `c`); absent when out of range, which
matches the `NaN` padding pandas uses for ragged data. -/
def getCell (g : Grid) (r c : Nat) : Cell :=
  ((g.get? r).bind (fun row => row.get? c)).join

/-- Row-level `notna().any(axis=1)`. -/
def rowNonEmpty (row : List Cell) : Bool :=
  row.any (fun c => c.isSome)

/-! ### Grid Loader: trailing-empty cropping (claim C2)

`utils.Worksheet.crop_out_empty_rows_and_columns` scans rows from the bottom
and columns from the right for the last non-empty one and keeps everything up
to and including it.  If every row (or every column) is empty the Python
local is never assigned and the function dies with `UnboundLocalError`,
modelled as `none`. -/

/-- Index of the last row of `g` with any non-empty cell. -/
def lastNonEmptyRowIdx (g : Grid) : Option Nat :=
  (List.range g.length).reverse.find? (fun r => rowNonEmpty ((g.get? r).getD []))

/-- Negation of `(data[:, c] == None).all()`: column `c` has a non-empty cell. -/
def colNonEmpty (g : Grid) (c : Nat) : Bool :=
  g.any (fun row => ((row.get? c).join).isSome)

/-- Index of the last column of `g` with any non-empty cell (the column range
is taken from row 0, as in `range(len(data[0]))`). -/
def lastNonEmptyColIdx (g : Grid) : Option Nat :=
  (List.range (g.headD []).length).reverse.find? (fun c => colNonEmpty g c)

/-- Models `utils.Worksheet.crop_out_empty_rows_and_columns`. -/
def crop_out_empty_rows_and_columns (g : Grid) : Option Grid :=
  match lastNonEmptyRowIdx g, lastNonEmptyColIdx g with
  | some r, some c => some ((g.take (r + 1)).map (fun row => row.take (c + 1)))
  | _, _ => none

/-- Models `Series.drop_duplicates(keep='last').index[0]` on a Boolean series: the
first index whose value does not occur again later in the list. -/
def keepLastHead (flags : List Bool) : Option Nat :=
  (List.range flags.length).find?
    (fun i => ¬ (flags.drop (i + 1)).contains (flags.getD i false))

/-- Models `AnalysisExcelWorksheetInterface._load` (bases), the two truncation steps
after normalization: rows are cut at
`notna().any(axis=1).drop_duplicates(keep='last').index[0]` (inclusive
`loc`), then columns likewise on the row-truncated frame. -/
def analysisLoadCrop (g : Grid) : Option Grid := do
  let r ← keepLastHead (g.map rowNonEmpty)
  let g1 := g.take (r + 1)
  let c ← keepLastHead ((List.range (g1.headD []).length).map
    (fun j => g1.any (fun row => ((row.get? j).join).isSome)))
  some (g1.map (fun row => row.take (c + 1)))

/-! ### Geometry Resolver: the subsample-column walk (claim C1) -/

/-- The header walk of `_parse_01_subsamples` (bases, lines 236–246): pandas
`.items()` yields the true column label `k`, so the expected heading is
`"SUB" + first_row[k-1]`, the real previous heading.  `fuel` starts at the
header length and bounds the recursion.  The arm where `hdr[k]` is present
but `hdr[k-1]` absent cannot arise once columns 0/1 passed the
SAMPLE/SUBSAMPLE checks (every earlier walked heading matched a string);
the walk simply stops there. -/
def basesWalk (hdr : List Cell) : Nat → Nat → Nat
  | 0, k => k
  | fuel + 1, k =>
    match hdr.get? k, hdr.get? (k - 1) with
    | some (some h), some (some p) =>
      if h = "SUB" ++ p then basesWalk hdr fuel (k + 1) else k
    | _, _ => k

/-- The `subsample_columns.stop` resolved by bases `_parse_01_subsamples`. -/
def subsampleStop (g : Grid) : Nat :=
  basesWalk (g.headD []) (g.headD []).length 2

/-- The header walk of `AnalysisDatasetWorksheet._compute_geometry` (iface,
lines 472–477).  `enumerate(self.data[0][2:])` restarts its counter at 0, so
the heading compared is `self.data[0][i - 1]` with `i` the *enumerate*
counter: for `i = 0` numpy resolves index `-1`, the LAST header cell; for
`i ≥ 1` it is cell `i - 1`, not `2 + i - 1`.  An absent cell at that index
raises `TypeError` on `'SUB' + None` (`none` here). -/
def geomWalk (row0 : List Cell) : Nat → Nat → Nat → Option Nat
  | 0, _, stop => some stop
  | fuel + 1, i, stop =>
    if 2 + i < row0.length then
      let prevIdx := if i = 0 then row0.length - 1 else i - 1
      match row0.get? prevIdx with
      | some (some p) =>
        if row0.get? (2 + i) = some (some ("SUB" ++ p)) then
          geomWalk row0 fuel (i + 1) (stop + 1)
        else some stop
      | _ => none
    else some stop

/-- The `subsample_columns.stop` resolved by iface `_compute_geometry`;
`none` models the crash on an empty grid (`self.data[0]`). -/
def geomSubsampleStop (g : Grid) : Option Nat :=
  match g with
  | [] => none
  | row0 :: _ => geomWalk row0 row0.length 0 2

/-! ### Worksheet geometry (bases revision, claim C9)

`_parse_01_subsamples` / `_parse_02_metadata_types` /
`_parse_03_result_type_metadata_sets` store slices into
`self._geometry`; the record below holds their endpoints
(`subsample_columns = [0, subColStop)`, `subsample_rows = [subRowStart,
subRowStop)`, `metadata_type_rows = [mtRowStart, mtRowStop)`,
`result_type_columns = [rtColStart, rtColStop)`). -/

structure Geometry where
  subColStop : Nat
  subRowStart : Nat
  subRowStop : Nat
  mtCol : Nat
  mtRowStart : Nat
  mtRowStop : Nat
  rtColStart : Nat
  rtColStop : Nat
deriving DecidableEq, Repr

/-- Models `len(self._df.columns)`: the column count, read off the header row. -/
def ncols (g : Grid) : Nat := (g.headD []).length

/-- Row-slice `notna().any(axis=1)` over the first `stop` columns of row `r`. -/
def rowHasSubValue (g : Grid) (stop r : Nat) : Bool :=
  (List.range stop).any (fun c => (getCell g r c).isSome)

/-- Scan a list of row indices for the first row with a non-empty
subsample-column cell (`first_valid_index` over the masked series). -/
def firstSubRow (g : Grid) (stop : Nat) : List Nat → Option Nat
  | [] => none
  | r :: rs => if rowHasSubValue g stop r then some r else firstSubRow g stop rs

/-- The `rows_start_idx` of bases `_parse_01_subsamples` (lines 251–255): first
row index ≥ 1 whose subsample columns are not all absent. -/
def basesRowStart (g : Grid) (stop : Nat) : Option Nat :=
  firstSubRow g stop (List.range' 1 (g.length - 1))

/-- The `subsample_rows.start`: the found row, or — when no subsample row exists
(`first_valid_index()` returns `None`, which is falsy) — the end of the grid,
giving the empty slice of line 262. -/
def basesStartIdx (g : Grid) (s : Nat) : Nat :=
  match basesRowStart g s with
  | some r => r
  | none => g.length

/-- The geometry part of bases `_parse_01` … `_parse_03`: the heading checks
on cells A1/B1 and on the metadata-type column (which `_parse_02` requires to
exist and to read METADATA_TYPE), the subsample-column walk, the subsample
and metadata row ranges, and the result-type column range.  `none` when any
heading check raises, i.e. when the resolver does not complete. -/
def basesResolveGeometry (g : Grid) : Option Geometry :=
  if getCell g 0 0 ≠ some "SAMPLE" then none
  else if getCell g 0 1 ≠ some "SUBSAMPLE" then none
  else
    let s := subsampleStop g
    if getCell g 0 s = some "METADATA_TYPE" then
      some ⟨s, basesStartIdx g s, g.length, s, 1, basesStartIdx g s, s + 1, ncols g⟩
    else none

/-- The geometry well-formedness bundle asserted by claim C9. -/
def GeometryWF (g : Grid) (geo : Geometry) : Prop :=
  2 ≤ geo.subColStop ∧
  geo.mtCol = geo.subColStop ∧
  geo.rtColStart = geo.subColStop + 1 ∧
  geo.rtColStop = ncols g ∧
  geo.mtRowStart = 1 ∧
  geo.mtRowStop = geo.subRowStart ∧
  1 ≤ geo.subRowStart ∧
  geo.subRowStop = g.length ∧
  (∀ r, 1 ≤ r → r < geo.subRowStart → ∀ c, c < geo.subColStop →
    getCell g r c = none) ∧
  (∀ c, c < geo.subColStop → c ≠ geo.mtCol ∧ c < geo.rtColStart) ∧
  geo.mtCol < geo.rtColStart ∧
  (∀ r, geo.mtRowStart ≤ r → r < geo.mtRowStop →
    ¬ (geo.subRowStart ≤ r ∧ r < geo.subRowStop))

/-! ### Sample Registry lookup (claim C10) -/

/-- A SAMPLES unique-constraint key: (SURVEY_TITLE, STATION, EARTHMAT,
SAMPLE), the only uniqueness constraint `SamplesInterface._meta` enforces. -/
abbrev SampleKey := String × String × String × String

/-- The SAMPLE (name) component, `k[3]` in the source. -/
def sampleName (k : SampleKey) : String := k.2.2.2

/-- Models `self.indexes[('SURVEY_TITLE', 'STATION', 'EARTHMAT', 'SAMPLE')]`: a map
from key to worksheet row index, with distinct keys by construction of
`_create_indexes`. -/
abbrev SamplesIndex := List (SampleKey × Nat)

/-- Models `SamplesInterface.get_by_name`: filter the unique-constraint index on the
SAMPLE component, `assert len(row_idxes) <= 1`, and return the single row
index (here in place of the row object `get_by_row_idx` builds) or `None`.
The outer `none` models the `AssertionError`. -/
def get_by_name (idx : SamplesIndex) (name : String) : Option (Option Nat) :=
  let rowIdxes := (idx.filter (fun e => sampleName e.1 = name)).map
    (fun e => e.2)
  if rowIdxes.length ≤ 1 then some rowIdxes.head? else none

/-- Two rows with distinct 4-tuple keys — so admitted by the enforced
uniqueness constraint — that share the SAMPLE component. -/
def c10badIndex : SamplesIndex :=
  [(("T1", "ST1", "E1", "dup"), 1), (("T1", "ST1", "E2", "dup"), 2)]

/-- A registry whose SAMPLE components are pairwise distinct. -/
def c10goodIndex : SamplesIndex :=
  [(("T1", "ST1", "E1", "s1"), 1), (("T1", "ST1", "E2", "s2"), 2)]

/-! ### Concrete grids for claims C1 and C2 -/

/-- Header row SAMPLE, SUBSAMPLE, SUBSUBSAMPLE, METADATA_TYPE, one result
type: three subsample-identity columns. -/
def c1hdr : Grid :=
  [[some "SAMPLE", some "SUBSAMPLE", some "SUBSUBSAMPLE",
    some "METADATA_TYPE", some "rt1"]]

/-- Header row whose fourth column breaks the SUB-prefix chain while the
fifth looks like a deeper subsample level. -/
def c1hdrBreak : Grid :=
  [[some "SAMPLE", some "SUBSAMPLE", some "SUBSUBSAMPLE",
    some "X", some "SUBSUBSUBSAMPLE"]]

/-- One column, three rows; the middle row is an interior empty row and the
last row is non-empty. -/
def c2grid : Grid := [[some "x"], [none], [some "y"]]

/-- The worksheet of the C9 witness: width-2 subsample axis, one metadata
row, one subsample row, one result-type column. -/
def c9grid : Grid :=
  [[some "SAMPLE", some "SUBSAMPLE", some "METADATA_TYPE", some "rt1"],
   [none, none, some "mt1", some "mv1"],
   [some "s1", some "sub1", none, some "1.0"]]

/-- The geometry `c9grid` resolves to. -/
def c9geo : Geometry := ⟨2, 2, 3, 2, 1, 2, 3, 4⟩

/-! ### The iface worksheet pipeline (`AnalysisDatasetWorksheet`) -/

/-- Validation error kinds across the revisions; the numeric payloads are the
row / column indices the messages name. `nonEmptyRegion` is the error shape
claim C6 asserts — an empty-region failure naming the offending cell — which
no revision actually produces; `regionNotEmptyNoCell` is what the init
revision's `_validate_empty_regions` raises (worksheet only, no cell). -/
inductive ErrKind where
  | headingSample
  | headingSubsample
  | headingMetadataType (col : Nat)
  | missingSubsampleValue (row : Nat)
  | unknownSample (row : Nat)
  | duplicateSubsample (row prev : Nat)
  | missingMetadataType (row : Nat)
  | duplicateMetadataType (row prev : Nat)
  | missingResultType (col : Nat)
  | duplicateResultTypeMetadataSet (col prev : Nat)
  | regionNotEmptyNoCell
  | nonEmptyRegion (row col : Nat)
deriving DecidableEq, Repr

/-- Outcome of a Python parsing step: an uncaught runtime error
(`NameError`, `IndexError`, `TypeError`, `AssertionError`,
`AttributeError`), a raised `IntegrityError`, or success. -/
inductive PRes (α : Type) where
  | crash : PRes α
  | fail : ErrKind → PRes α
  | ok : α → PRes α
deriving DecidableEq, Repr

/-- The `subsample_rows_start_idx` of iface `_compute_geometry` (lines 479–482):
the loop scans rows 1… and breaks at the first row with a truthy
subsample-column cell; when the loop is never entered (single-row grid) the
variable is unbound (`NameError`); when the loop exhausts without a break the
variable keeps its *last* value, the final row index — there is no sentinel
for the no-subsample case. -/
def ifaceRowStartIdx (g : Grid) (stop : Nat) : Option Nat :=
  if g.length ≤ 1 then none
  else some ((firstSubRow g stop (List.range' 1 (g.length - 1))).getD
    (g.length - 1))

/-- Models `AnalysisDatasetWorksheet._compute_geometry` (lines 462–510): the buggy
`enumerate` walk, the row scan above, and the derived metadata-type /
result-type ranges.  The `start ≠ 0` test embeds the Python truthiness test
`if subsample_rows_start_idx`, whose else branch is unreachable here. -/
def computeGeometry (g : Grid) : Option Geometry :=
  match geomSubsampleStop g with
  | none => none
  | some s =>
    match ifaceRowStartIdx g s with
    | none => none
    | some start =>
      if start ≠ 0 then
        some ⟨s, start, g.length, s, 1, start, s + 1, ncols g⟩
      else
        some ⟨s, g.length, g.length, s, 1, g.length, s + 1, ncols g⟩

/-- A Subsample Key: the tuple of subsample-column cells of one row. -/
abbrev SubKey := List Cell

/-- The subsample-identity columns `[0, subColStop)`. -/
def subColsList (geo : Geometry) : List Nat := List.range geo.subColStop

/-- The subsample rows `[subRowStart, subRowStop)`. -/
def subRowsList (geo : Geometry) : List Nat :=
  List.range' geo.subRowStart (geo.subRowStop - geo.subRowStart)

/-- The metadata-type rows `[mtRowStart, mtRowStop)`. -/
def mtRowsList (geo : Geometry) : List Nat :=
  List.range' geo.mtRowStart (geo.mtRowStop - geo.mtRowStart)

/-- The result-type columns `[rtColStart, rtColStop)`. -/
def rtColsList (geo : Geometry) : List Nat :=
  List.range' geo.rtColStart (geo.rtColStop - geo.rtColStart)

/-- Models `self.workbook.dataset.samples.get_by_name(sample_name)` for the cell
`row[0]`: an absent cell matches no registry key and yields `None` (the
assert in `get_by_name` is fine with zero matches). -/
def rowSampleLookup (reg : SamplesIndex) (g : Grid) (r : Nat) :
    Option (Option Nat) :=
  match getCell g r 0 with
  | some nm => get_by_name reg nm
  | none => some none

/-- Loop body of iface `_process_subsamples` (lines 534–559), check order:
missing value → unknown sample → duplicate.  The `e.2 ≠ 0` test embeds
the walrus truthiness `if other_row_idx := index.get(row_key)`. -/
def ifaceSubsampleRowCheck (reg : SamplesIndex) (g : Grid) (geo : Geometry)
    (index : List (SubKey × Nat)) (r : Nat) : PRes Unit :=
  match (subColsList geo).find? (fun c => (getCell g r c).isNone) with
  | some _ => .fail (.missingSubsampleValue r)
  | none =>
    match rowSampleLookup reg g r with
    | none => .crash
    | some none => .fail (.unknownSample r)
    | some (some _) =>
      let rowKey : SubKey := (subColsList geo).map (fun c => getCell g r c)
      match index.find? (fun e => e.1 = rowKey) with
      | some e => if e.2 ≠ 0 then .fail (.duplicateSubsample r e.2) else .ok ()
      | none => .ok ()

/-- The `_process_subsamples` row loop, threading the subsample index
(`index[row_key] = row_idx` after the checks; newest entry shadows, matching
dict update). -/
def ifaceProcessSubsamplesAux (reg : SamplesIndex) (g : Grid)
    (geo : Geometry) : List Nat → List (SubKey × Nat) →
    PRes (List (SubKey × Nat))
  | [], index => .ok index
  | r :: rs, index =>
    match ifaceSubsampleRowCheck reg g geo index r with
    | .crash => .crash
    | .fail e => .fail e
    | .ok _ =>
      ifaceProcessSubsamplesAux reg g geo rs
        (((subColsList geo).map (fun c => getCell g r c), r) :: index)

/-- iface `_process_subsamples`: the A1/B1 heading checks followed by the
row loop. -/
def ifaceProcessSubsamples (reg : SamplesIndex) (g : Grid) (geo : Geometry) :
    PRes (List (SubKey × Nat)) :=
  match g with
  | [] => .crash
  | row0 :: _ =>
    match row0.get? 0 with
    | none => .crash
    | some c0 =>
      if c0 ≠ some "SAMPLE" then .fail .headingSample
      else if row0.length < 2 ∨ (row0.get? 1).join ≠ some "SUBSAMPLE" then
        .fail .headingSubsample
      else ifaceProcessSubsamplesAux reg g geo (subRowsList geo) []

/-- iface `_process_metadata_types` row loop. -/
def ifaceProcessMetadataTypesAux (g : Grid) (geo : Geometry) :
    List Nat → List (String × Nat) → PRes (List (String × Nat))
  | [], index => .ok index
  | r :: rs, index =>
    match getCell g r geo.mtCol with
    | none => .fail (.missingMetadataType r)
    | some v =>
      match index.find? (fun e => e.1 = v) with
      | some e =>
        if e.2 ≠ 0 then .fail (.duplicateMetadataType r e.2)
        else ifaceProcessMetadataTypesAux g geo rs ((v, r) :: index)
      | none => ifaceProcessMetadataTypesAux g geo rs ((v, r) :: index)

/-- iface `_process_metadata_types` (lines 561–598): heading check (a raw
numpy access, `IndexError` if the column does not exist) then the row loop.
`if metadata_type is None` is live in this revision: absent source cells stay
`None` through `_normalize_data`. -/
def ifaceProcessMetadataTypes (g : Grid) (geo : Geometry) :
    PRes (List (String × Nat)) :=
  match (g.headD []).get? geo.mtCol with
  | none => .crash
  | some c =>
    if c ≠ some "METADATA_TYPE" then .fail (.headingMetadataType geo.mtCol)
    else ifaceProcessMetadataTypesAux g geo (mtRowsList geo) []

/-- Models `self.metadata_types`: the metadata-type column cells over the
metadata-type rows, in row order. -/
def metadataTypesList (g : Grid) (geo : Geometry) : List Cell :=
  (mtRowsList geo).map (fun r => getCell g r geo.mtCol)

/-- Code-point comparison of strings (`a <= b` in Python). -/
def charListLe : List Char → List Char → Bool
  | [], _ => true
  | _ :: _, [] => false
  | a :: as, b :: bs => if a = b then charListLe as bs else decide (a.val < b.val)

/-- String `<=` by code points. -/
def pyStrLe (a b : String) : Bool := charListLe a.data b.data

/-- Comparator of metadata pairs by metadata-type name; the absent-name arms
are unreachable after metadata-type validation (Python `sorted` would raise
`TypeError` ordering `None` against a string). -/
def pairLe (a b : Cell × Cell) : Bool :=
  match a.1, b.1 with
  | some x, some y => pyStrLe x y
  | none, _ => true
  | some _, none => false

/-- Insert into a sorted list after all elements whose key is ≤, keeping
earlier-processed elements of equal key in front. -/
def insertSorted {α : Type} (le : α → α → Bool) (x : α) : List α → List α
  | [] => [x]
  | h :: t => if le h x then h :: insertSorted le x t else x :: h :: t

/-- Python's stable `sorted`, as a left fold of stable insertions. -/
def pySorted {α : Type} (le : α → α → Bool) (l : List α) : List α :=
  l.foldl (fun acc x => insertSorted le x acc) []

/-- Models `tuple(sorted(zip(self.metadata_types, metadata_values), key=lambda x:
x[0]))` — note: no filtering of absent metadata values. -/
def sortedMetadataSet (mts vals : List Cell) : List (Cell × Cell) :=
  pySorted pairLe (mts.zip vals)

/-- A Result-Type/Metadata-Set key: `(result_type, metadata_set)`. -/
abbrev RTMSKey := Cell × List (Cell × Cell)

/-- The key iface builds for column `c`: the header cell as result type and
the sorted metadata pairs over the metadata-type rows. -/
def rtmsKeyAt (g : Grid) (geo : Geometry) (c : Nat) : RTMSKey :=
  (getCell g 0 c,
   sortedMetadataSet (metadataTypesList g geo)
     ((mtRowsList geo).map (fun r => getCell g r c)))

/-- iface `_process_result_types_and_metadata_sets` (lines 600–635) column
loop: missing result type, then duplicate (result type, metadata set). -/
def ifaceProcessRTMSAux (g : Grid) (geo : Geometry) :
    List Nat → List (RTMSKey × Nat) → PRes (List (RTMSKey × Nat))
  | [], index => .ok index
  | c :: cs, index =>
    let key := rtmsKeyAt g geo c
    match key.1 with
    | none => .fail (.missingResultType c)
    | some _ =>
      match index.find? (fun e => e.1 = key) with
      | some e =>
        if e.2 ≠ 0 then .fail (.duplicateResultTypeMetadataSet c e.2)
        else ifaceProcessRTMSAux g geo cs ((key, c) :: index)
      | none => ifaceProcessRTMSAux g geo cs ((key, c) :: index)

/-- iface `_process_result_types_and_metadata_sets`. -/
def ifaceProcessRTMS (g : Grid) (geo : Geometry) :
    PRes (List (RTMSKey × Nat)) :=
  ifaceProcessRTMSAux g geo (rtColsList geo) []

/-- Models `AnalysisDatasetWorksheet._check_empty_regions` (lines 637–648): the body
is `pass` under `# TODO: Complete this` (the intended check survives only as
a comment), so no error is ever produced. -/
def ifaceCheckEmptyRegions (_g : Grid) (_geo : Geometry) : Option ErrKind :=
  none

/-- The data `parse_data` leaves behind for the workbook-level duplicate
check: the geometry and the `subsamples` / `result_type_metadata_sets`
indexes. -/
structure ParsedWS where
  geo : Geometry
  subIndex : List (SubKey × Nat)
  rtmsIndex : List (RTMSKey × Nat)
deriving DecidableEq, Repr

/-- Models `AnalysisDatasetWorksheet.parse_data`: geometry, then subsamples, then
metadata types, then result types / metadata sets, then the (no-op) empty
region check. -/
def parseWorksheet (reg : SamplesIndex) (g : Grid) : PRes ParsedWS :=
  match computeGeometry g with
  | none => .crash
  | some geo =>
    match ifaceProcessSubsamples reg g geo with
    | .crash => .crash
    | .fail e => .fail e
    | .ok subIdx =>
      match ifaceProcessMetadataTypes g geo with
      | .crash => .crash
      | .fail e => .fail e
      | .ok _ =>
        match ifaceProcessRTMS g geo with
        | .crash => .crash
        | .fail e => .fail e
        | .ok rtmsIdx =>
          match ifaceCheckEmptyRegions g geo with
          | some e => .fail e
          | none => .ok ⟨geo, subIdx, rtmsIdx⟩

/-- One record of iface `AnalysisDatasetWorksheet.results` (lines 716–754);
the worksheet name and xlref string are kept as the raw (row, col) pair.  An
absent result cell is mapped to the empty string (`if pd.isna(value): value
= ''`): an explicit marker, the record is still emitted. -/
structure IfaceRec where
  row : Nat
  col : Nat
  sampleRowIdx : Nat
  subsample : List Cell
  resultType : Cell
  metadataSet : List (Cell × Cell)
  value : String
deriving DecidableEq, Repr

/-- The records of one subsample row: one per result-type column, in column
order. -/
def ifaceRowRecs (g : Grid) (geo : Geometry) (r i : Nat) : List IfaceRec :=
  (rtColsList geo).map (fun c =>
    { row := r, col := c, sampleRowIdx := i,
      subsample := ((subColsList geo).map (fun cc => getCell g r cc)).tail,
      resultType := getCell g 0 c,
      metadataSet := sortedMetadataSet (metadataTypesList g geo)
        ((mtRowsList geo).map (fun rr => getCell g rr c)),
      value := (getCell g r c).getD "" })

/-- iface `results` over a list of subsample rows: each row resolves its
Sample via the registry (`sample.row_idx` dies with `AttributeError` when
the lookup returns `None`, and the lookup itself can die on its assert —
both `none` here), then yields one record per result-type column. -/
def ifaceResultsAux (reg : SamplesIndex) (g : Grid) (geo : Geometry) :
    List Nat → Option (List IfaceRec)
  | [] => some []
  | r :: rs =>
    match rowSampleLookup reg g r with
    | none => none
    | some none => none
    | some (some i) =>
      match ifaceResultsAux reg g geo rs with
      | none => none
      | some rest => some (ifaceRowRecs g geo r i ++ rest)

/-- iface `AnalysisDatasetWorksheet.results`, materialized. -/
def ifaceResults (reg : SamplesIndex) (g : Grid) (geo : Geometry) :
    Option (List IfaceRec) :=
  ifaceResultsAux reg g geo (subRowsList geo)

/-- Models `AnalysisDatasetWorksheet.result_count` (lines 673–675):
`subsample_count * result_type_count`. -/
def result_count (geo : Geometry) : Nat :=
  (geo.subRowStop - geo.subRowStart) * (geo.rtColStop - geo.rtColStart)

/-! ### The bases row checks and results (claims C5, C7, C8) -/

/-- Loop body of bases `_parse_01_subsamples` (lines 270–296), check order:
missing value → duplicate of an earlier row → sample exists.  `prevRows`
are the earlier subsample rows in ascending order (`rows.loc[:row_idx-1]`),
`row` the current row restricted to the subsample columns.  The `p.1 = 0`
test embeds `if duplicate_of_row_idx:` (falsy for `None` and for row 0). -/
def basesSubsampleRowCheck (sampleNames : List String)
    (prevRows : List (Nat × List Cell)) (r : Nat) (row : List Cell) :
    Option ErrKind :=
  if row.any (fun c => c.isNone) then some (.missingSubsampleValue r)
  else
    match (prevRows.find? (fun p => p.2 = row)).bind
        (fun p => if p.1 = 0 then none else some p.1) with
    | some prev => some (.duplicateSubsample r prev)
    | none =>
      match (row.get? 0).join with
      | some nm =>
        if sampleNames.contains nm then none else some (.unknownSample r)
      | none => some (.unknownSample r)

/-- The bases `_parse_01_subsamples` row loop. -/
def basesProcessSubsamplesAux (sampleNames : List String) (g : Grid)
    (geo : Geometry) : List Nat → List (Nat × List Cell) → Option ErrKind
  | [], _ => none
  | r :: rs, prev =>
    let row := (subColsList geo).map (fun c => getCell g r c)
    match basesSubsampleRowCheck sampleNames prev r row with
    | some e => some e
    | none => basesProcessSubsamplesAux sampleNames g geo rs (prev ++ [(r, row)])

/-- Bases subsample-row validation over the resolved geometry. -/
def basesProcessSubsamples (sampleNames : List String) (g : Grid)
    (geo : Geometry) : Option ErrKind :=
  basesProcessSubsamplesAux sampleNames g geo (subRowsList geo) []

/-- One record of bases `results` (lines 151–193): no registry join, the
metadata mapping keeps only pairs whose value is present (`if not
pd.isna(metadata_value)`), and an absent result cell stays the explicit
`None` marker. -/
structure BasesRec where
  sampleName : Cell
  subsample : List Cell
  resultType : Cell
  metadata : List (Cell × String)
  value : Option String
deriving DecidableEq, Repr

/-- bases `AnalysisExcelWorksheetInterface.results`, materialized: one record
per (subsample row, result-type column), row-major. -/
def basesResults (g : Grid) (geo : Geometry) : List BasesRec :=
  (subRowsList geo).flatMap (fun r =>
    (rtColsList geo).map (fun c =>
      { sampleName := getCell g r 0,
        subsample := ((subColsList geo).map (fun cc => getCell g r cc)).tail,
        resultType := getCell g 0 c,
        metadata := ((metadataTypesList g geo).zip
            ((mtRowsList geo).map (fun rr => getCell g rr c))).filterMap
          (fun p => match p.2 with
            | some v => some (p.1, v)
            | none => none),
        value := getCell g r c }))

/-! ### Cross-worksheet duplicate detection (claim C3)

`AnalysisDatasetWorkbook._check_duplicates` (lines 253–289) intersects, for
every ordered worksheet pair, the *key sets* of the two per-worksheet
indexes; it raises as soon as both intersections are non-empty.  No cell
value is consulted. -/

/-- The collision test of `_check_duplicates` between a worksheet and an
earlier one: a common subsample key and a common result-type/metadata-set
key. -/
def wsCollide (ws prev : ParsedWS) : Bool :=
  (ws.subIndex.any (fun e => prev.subIndex.any (fun f => f.1 = e.1))) &&
  (ws.rtmsIndex.any (fun e => prev.rtmsIndex.any (fun f => f.1 = e.1)))

/-- The loop of `_check_duplicates`: each worksheet (the first skipped) is
compared against every earlier one. -/
def checkDuplicatesAux : List ParsedWS → List ParsedWS → Bool
  | _, [] => false
  | prev, ws :: rest =>
    prev.any (fun p => wsCollide ws p) || checkDuplicatesAux (prev ++ [ws]) rest

/-- Models `AnalysisDatasetWorkbook._check_duplicates`: `true` when the
`DuplicateAnalysisResultParametersError` is raised. -/
def check_duplicates (wss : List ParsedWS) : Bool :=
  checkDuplicatesAux [] wss

/-- Models `AnalysisDatasetWorkbook._parse_data`: parse every worksheet (fail-fast),
then run the duplicate check over all of them. -/
def parseWorkbook (reg : SamplesIndex) : List Grid → PRes (List ParsedWS)
  | [] => .ok []
  | g :: rest =>
    match parseWorksheet reg g with
    | .crash => .crash
    | .fail e => .fail e
    | .ok pw =>
      match parseWorkbook reg rest with
      | .crash => .crash
      | .fail e => .fail e
      | .ok pws => .ok (pw :: pws)

/-- Modelled from the spec's words (§4.4), for comparison with
`check_duplicates`: the per-worksheet index of (Subsample Key,
Result-Type/Metadata-Set Key) pairs actually present as *populated* cells —
a pair whose intersection cell is blank is excluded. -/
def specPopulatedPairIndex (g : Grid) (pw : ParsedWS) :
    List (SubKey × RTMSKey) :=
  pw.subIndex.flatMap (fun se =>
    pw.rtmsIndex.filterMap (fun re =>
      if (getCell g se.2 re.2).isSome then some (se.1, re.1) else none))

/-- Worksheet A: subsample `(s1, sub1)` × result type `rt1`, populated
intersection cell. -/
def c3gridA : Grid :=
  [[some "SAMPLE", some "SUBSAMPLE", some "METADATA_TYPE", some "rt1"],
   [some "s1", some "sub1", none, some "10"]]

/-- Worksheet B: the same subsample and result type, but the intersection
cell is blank. -/
def c3gridB : Grid :=
  [[some "SAMPLE", some "SUBSAMPLE", some "METADATA_TYPE", some "rt1"],
   [some "s1", some "sub1", none, none]]

/-- The parsed form shared by `c3gridA` and `c3gridB` (their indexes are
equal; only the data cell differs). -/
def c3pw : ParsedWS :=
  ⟨⟨2, 1, 2, 2, 1, 1, 3, 4⟩, [([some "s1", some "sub1"], 1)],
   [((some "rt1", []), 3)]⟩

/-! ### The init revision and the empty-region checks (claim C6) -/

/-- The `_compute_metadata_types_row_idx_slice` of the init revision: the
metadata-type rows stop after the *last* non-null cell of the metadata
column (`1 if s[key].empty else s[key].index[-1] + 1`) — unlike the iface /
bases resolvers, rows in this range may carry subsample-column values. -/
def initMtRowStop (g : Grid) (mtCol : Nat) : Nat :=
  match (List.range' 1 (g.length - 1)).reverse.find?
      (fun r => (getCell g r mtCol).isSome) with
  | some r => r + 1
  | none => 1

/-- The init revision's `_compute_geometry`: the same heading checks and
`.items()` walk as bases, the metadata rows above, and the subsample rows
from their stop to the end of the grid. -/
def initGeometry (g : Grid) : Option Geometry :=
  if getCell g 0 0 ≠ some "SAMPLE" then none
  else if getCell g 0 1 ≠ some "SUBSAMPLE" then none
  else
    let s := subsampleStop g
    if getCell g 0 s = some "METADATA_TYPE" then
      some ⟨s, initMtRowStop g s, g.length, s, 1, initMtRowStop g s,
        s + 1, ncols g⟩
    else none

/-- Models `AnalysisExcelWorksheetInterface._validate_empty_regions` (init, lines
459–466): `df.iloc[metadata_type_rows, subsample_columns]` must be all-NA;
the raised error names the worksheet only — it carries no cell reference. -/
def initValidateEmptyRegions (g : Grid) (geo : Geometry) : Option ErrKind :=
  if (mtRowsList geo).all (fun r => (subColsList geo).all
      (fun c => (getCell g r c).isNone))
  then none
  else some .regionNotEmptyNoCell

/-- Whether the metadata-type-rows × subsample-columns rectangle holds a
non-empty cell. -/
def rectHasNonEmptyCell (g : Grid) (geo : Geometry) : Bool :=
  (mtRowsList geo).any (fun r => (subColsList geo).any
    (fun c => (getCell g r c).isSome))

/-- Worksheet with a populated subsample-column cell (A2) inside a
metadata-type row — reachable only under the init geometry, whose metadata
rows are derived from the metadata column. -/
def c6grid : Grid :=
  [[some "SAMPLE", some "SUBSAMPLE", some "METADATA_TYPE", some "rt1"],
   [some "s1", none, some "mt1", some "v1"],
   [some "s1", some "sub1", none, some "r"]]

/-- The geometry `initGeometry` resolves for `c6grid`. -/
def c6geo : Geometry := ⟨2, 2, 3, 2, 1, 2, 3, 4⟩

/-! ### Concrete inputs for claims C4, C5, C7, C8 -/

/-- A registry holding the sample `"s1"` at row 1. -/
def c4reg : SamplesIndex := [(("T1", "ST1", "E1", "s1"), 1)]

/-- The parsed form of `c9grid` under the iface pipeline. -/
def c4pw : ParsedWS :=
  ⟨c9geo, [([some "s1", some "sub1"], 2)],
   [((some "rt1", [(some "mt1", some "mv1")]), 3)]⟩

/-- Worksheet whose row 2 duplicates row 1 while both rows' sample `"X"` is
not registered. -/
def c5grid : Grid :=
  [[some "SAMPLE", some "SUBSAMPLE", some "METADATA_TYPE", some "rt1"],
   [some "X", some "a", none, some "1"],
   [some "X", some "a", none, some "2"]]

/-- The geometry of `c5grid` (subsample rows 1–2, no metadata rows). -/
def c5geo : Geometry := ⟨2, 1, 3, 2, 1, 1, 3, 4⟩

/-- Worksheet with metadata rows but no subsample row at all. -/
def c7grid : Grid :=
  [[some "SAMPLE", some "SUBSAMPLE", some "METADATA_TYPE", some "rt1"],
   [none, none, some "mt1", some "mv1"],
   [none, none, some "mt2", some "mv2"]]

/-- Geometry of `c7grid` under the bases resolver: empty subsample range `[3, 3)` at the
end of the grid. -/
def c7basesGeo : Geometry := ⟨2, 3, 3, 2, 1, 3, 3, 4⟩

/-- Geometry of `c7grid` under iface `_compute_geometry`: the exhausted loop leaves
`row_idx = 2`, so the last metadata row is claimed as a subsample row. -/
def c7ifaceGeo : Geometry := ⟨2, 2, 3, 2, 1, 2, 3, 4⟩

/-- Worksheet with an absent metadata value (row 2 of the result column) and
an absent result cell (row 3). -/
def c8grid : Grid :=
  [[some "SAMPLE", some "SUBSAMPLE", some "METADATA_TYPE", some "rt1"],
   [none, none, some "mt1", some "v1"],
   [none, none, some "mt2", none],
   [some "s1", some "sub1", none, none]]

/-- The geometry of `c8grid` under both revisions. -/
def c8geo : Geometry := ⟨2, 3, 4, 2, 1, 3, 3, 4⟩

/-! ### Scan and walk lemmas; claims C9, C10, C1, C2 -/

/-- The walk never backs up: its result is at least its starting column. -/
theorem basesWalk_le (hdr : List Cell) :
    ∀ fuel k, k ≤ basesWalk hdr fuel k := by
  intro fuel
  induction fuel with
  | zero => intro k; simp [basesWalk]
  | succ n ih =>
    intro k
    simp only [basesWalk]
    match hdr.get? k, hdr.get? (k - 1) with
    | some (some h), some (some p) =>
      by_cases hc : h = "SUB" ++ p
      · simpa [hc] using le_trans (Nat.le_succ k) (ih (k + 1))
      · simp [hc]
    | some (some h), some none => simp
    | some (some h), none => simp
    | some none, o => cases o <;> simp
    | none, o => cases o <;> simp

/-- A false scan result means the predicate fails on every row of the range
up to the found row. -/
theorem firstSubRow_before (g : Grid) (stop : Nat) :
    ∀ n s0 s, firstSubRow g stop (List.range' s0 n) = some s →
      ∀ r, s0 ≤ r → r < s → rowHasSubValue g stop r = false := by
  intro n
  induction n with
  | zero => intro s0 s h; simp [firstSubRow] at h
  | succ m ih =>
    intro s0 s h r hr1 hr2
    rw [List.range'_succ] at h
    simp only [firstSubRow] at h
    by_cases h0 : rowHasSubValue g stop s0 = true
    · rw [if_pos h0] at h
      injection h with h
      omega
    · rw [if_neg h0] at h
      rcases Nat.eq_or_lt_of_le hr1 with he | hl
      · simpa [← he] using h0
      · exact ih (s0 + 1) s h r hl hr2

/-- A failed scan means the predicate fails on every row of the range. -/
theorem firstSubRow_none (g : Grid) (stop : Nat) :
    ∀ n s0, firstSubRow g stop (List.range' s0 n) = none →
      ∀ r, s0 ≤ r → r < s0 + n → rowHasSubValue g stop r = false := by
  intro n
  induction n with
  | zero => intro s0 _ r hr1 hr2; omega
  | succ m ih =>
    intro s0 h r hr1 hr2
    rw [List.range'_succ] at h
    simp only [firstSubRow] at h
    by_cases h0 : rowHasSubValue g stop s0 = true
    · rw [if_pos h0] at h; exact absurd h (by simp)
    · rw [if_neg h0] at h
      rcases Nat.eq_or_lt_of_le hr1 with he | hl
      · simpa [← he] using h0
      · exact ih (s0 + 1) h r hl (by omega)

/-- A successful scan lands inside the scanned range. -/
theorem firstSubRow_mem (g : Grid) (stop : Nat) :
    ∀ n s0 s, firstSubRow g stop (List.range' s0 n) = some s →
      s0 ≤ s ∧ s < s0 + n := by
  intro n
  induction n with
  | zero => intro s0 s h; simp [firstSubRow] at h
  | succ m ih =>
    intro s0 s h
    rw [List.range'_succ] at h
    simp only [firstSubRow] at h
    by_cases h0 : rowHasSubValue g stop s0 = true
    · rw [if_pos h0] at h
      injection h with h
      omega
    · rw [if_neg h0] at h
      have := ih (s0 + 1) s h
      omega

/-- Reduction of `basesStartIdx` on a successful scan. -/
theorem basesStartIdx_some {g : Grid} {s v : Nat}
    (hrs : basesRowStart g s = some v) : basesStartIdx g s = v := by
  simp [basesStartIdx, hrs]

/-- Reduction of `basesStartIdx` on a failed scan. -/
theorem basesStartIdx_none {g : Grid} {s : Nat}
    (hrs : basesRowStart g s = none) : basesStartIdx g s = g.length := by
  simp [basesStartIdx, hrs]

/-- Row emptiness over the subsample columns, element-wise. -/
theorem rowHasSubValue_false_iff (g : Grid) (stop r : Nat) :
    rowHasSubValue g stop r = false ↔
      ∀ c, c < stop → getCell g r c = none := by
  simp only [rowHasSubValue, List.any_eq_false, List.mem_range,
    Option.isSome_iff_ne_none, Bool.not_eq_true, decide_eq_false_iff_not,
    not_not]

/-- C9: whenever the bases geometry resolver completes, the resolved
geometry is well formed: the subsample axis is `[0, s)` with `s ≥ 2`, the
metadata-type column is `s`, the result-type columns are `[s+1, ncols)`, the
metadata-type rows run from 1 to the first subsample row (which is ≥ 1),
every subsample-column cell inside a metadata-type row is absent, and the
axes are pairwise disjoint. -/
theorem c9_geometry_wf (g : Grid) (geo : Geometry)
    (h : basesResolveGeometry g = some geo) : GeometryWF g geo := by
  have hnonempty : g ≠ [] := by
    intro he
    rw [basesResolveGeometry, he] at h
    simp [getCell] at h
  have hlen : 1 ≤ g.length := by
    cases g with
    | nil => exact absurd rfl hnonempty
    | cons a l => simp
  rw [basesResolveGeometry] at h
  by_cases h1 : getCell g 0 0 = some "SAMPLE"
  case neg => simp [h1] at h
  by_cases h2 : getCell g 0 1 = some "SUBSAMPLE"
  case neg => simp [h1, h2] at h
  simp only [h1, h2, ne_eq, not_true_eq_false, if_false, ite_not] at h
  by_cases h3 : getCell g 0 (subsampleStop g) = some "METADATA_TYPE"
  case neg => simp [h3] at h
  simp only [h3, if_true, Option.some.injEq] at h
  subst h
  have hs2 : 2 ≤ subsampleStop g := basesWalk_le _ _ 2
  have hstart1 : 1 ≤ basesStartIdx g (subsampleStop g) := by
    cases hrs : basesRowStart g (subsampleStop g) with
    | none => rw [basesStartIdx_none hrs]; exact hlen
    | some v =>
      rw [basesStartIdx_some hrs]
      have := firstSubRow_mem g (subsampleStop g) (g.length - 1) 1 v hrs
      omega
  have habsent : ∀ r, 1 ≤ r → r < basesStartIdx g (subsampleStop g) →
      ∀ c, c < subsampleStop g → getCell g r c = none := by
    intro r hr1 hr2 c hc
    cases hrs : basesRowStart g (subsampleStop g) with
    | none =>
      rw [basesStartIdx_none hrs] at hr2
      have := firstSubRow_none g (subsampleStop g) (g.length - 1) 1
        hrs r hr1 (by omega)
      exact (rowHasSubValue_false_iff g (subsampleStop g) r).mp this c hc
    | some v =>
      rw [basesStartIdx_some hrs] at hr2
      have := firstSubRow_before g (subsampleStop g) (g.length - 1) 1 v
        hrs r hr1 hr2
      exact (rowHasSubValue_false_iff g (subsampleStop g) r).mp this c hc
  refine ⟨hs2, rfl, rfl, rfl, rfl, rfl, hstart1, rfl, habsent, ?_, ?_, ?_⟩
  · intro c hc
    dsimp only at hc ⊢
    omega
  · dsimp only
    omega
  · intro r hr1 hr2 hcon
    dsimp only at hr1 hr2 hcon
    omega

/-- C10: when no two registered rows share a SAMPLE value, `get_by_name`
returns exactly the first (unique) matching row when one exists and `None`
otherwise, and its assertion cannot fail; moreover the 4-tuple uniqueness the
interface actually enforces does not imply that hypothesis — on an index with
distinct keys but a shared name, the assertion fails. -/
theorem c10_get_by_name :
    (∀ (idx : SamplesIndex) (name : String),
      idx.Pairwise (fun a b => sampleName a.1 ≠ sampleName b.1) →
      get_by_name idx name =
        some ((idx.find? (fun e => sampleName e.1 = name)).map
          (fun e => e.2))) ∧
    c10badIndex.Pairwise (fun a b => a.1 ≠ b.1) ∧
    get_by_name c10badIndex "dup" = none := by
  refine ⟨?_, by decide, by decide⟩
  intro idx name hpw
  induction idx with
  | nil => simp [get_by_name]
  | cons e rest ih =>
    rw [List.pairwise_cons] at hpw
    obtain ⟨hhead, htail⟩ := hpw
    by_cases he : sampleName e.1 = name
    · have hrest : rest.filter (fun x => decide (sampleName x.1 = name))
          = [] := by
        rw [List.filter_eq_nil_iff]
        intro b hb
        simp only [decide_eq_true_eq]
        intro hbn
        exact hhead b hb (by rw [he, hbn])
      simp [get_by_name, List.filter_cons, he, hrest, List.find?]
    · have hres := ih htail
      simp only [get_by_name, List.filter_cons, List.find?, he,
        decide_eq_true_eq, if_false, decide_False] at hres ⊢
      exact hres

/-- Witness for C10 at a concrete registry with unique names. -/
theorem c10_get_by_name_witness :
    get_by_name c10goodIndex "s2" = some (some 2) :=
  (c10_get_by_name.1 c10goodIndex "s2" (by decide)).trans (by decide)

/-- C1: on the SUBSUBSAMPLE header the bases walk resolves width 3 and the
break at the fourth column stops the walk at width 3, exactly as the claim
states; the iface `_compute_geometry` walk, whose `enumerate` counter
restarts at 0, resolves width 2 on the very same header, contradicting the
claim (and the class docstring and the deeper-subsample-levels test). -/
theorem c1_subsample_walk :
    subsampleStop c1hdr = 3 ∧ subsampleStop c1hdrBreak = 3 ∧
    geomSubsampleStop c1hdr = some 2 := by decide

/-- C2: `crop_out_empty_rows_and_columns` truncates `c2grid` exactly after
its last non-empty row, keeping the interior empty row, as the claim states;
the bases `_load` truncation on the same grid cuts after the *interior empty*
row (the `drop_duplicates(keep='last').index[0]` trick returns the last
`False` when it precedes the last `True`), dropping the trailing non-empty
row. -/
theorem c2_load_truncation :
    crop_out_empty_rows_and_columns c2grid = some c2grid ∧
    analysisLoadCrop c2grid = some [[some "x"], [none]] := by decide

/-- Witness for C9: the resolver completes on `c9grid` and the resolved
geometry is well formed. -/
theorem c9_geometry_wf_witness :
    basesResolveGeometry c9grid = some c9geo ∧ GeometryWF c9grid c9geo :=
  ⟨by decide, c9_geometry_wf c9grid c9geo (by decide)⟩

/-! ### Claim C4: count identity -/

/-- A successful subsample pass resolves every subsample row's sample. -/
theorem ifaceProcessSubsamplesAux_lookup (reg : SamplesIndex) (g : Grid)
    (geo : Geometry) :
    ∀ rows index out,
      ifaceProcessSubsamplesAux reg g geo rows index = .ok out →
      ∀ r ∈ rows, ∃ i, rowSampleLookup reg g r = some (some i) := by
  intro rows
  induction rows with
  | nil => intro index out _ r hr; simp at hr
  | cons a rs ih =>
    intro index out h r hr
    simp only [ifaceProcessSubsamplesAux] at h
    cases hc : ifaceSubsampleRowCheck reg g geo index a with
    | crash => rw [hc] at h; simp at h
    | fail e => rw [hc] at h; simp at h
    | ok u =>
      rw [hc] at h
      rcases List.mem_cons.mp hr with he | hm
      · subst he
        unfold ifaceSubsampleRowCheck at hc
        cases hf : (subColsList geo).find?
            (fun c => (getCell g r c).isNone) with
        | some _ => rw [hf] at hc; simp at hc
        | none =>
          rw [hf] at hc
          cases hl : rowSampleLookup reg g r with
          | none => rw [hl] at hc; simp at hc
          | some o =>
            cases o with
            | none => rw [hl] at hc; simp at hc
            | some i => exact ⟨i, rfl⟩
      · exact ih _ _ h r hm

/-- When every row's sample resolves, the stream materializes and its length
is rows × result-type columns. -/
theorem ifaceResultsAux_length (reg : SamplesIndex) (g : Grid)
    (geo : Geometry) :
    ∀ rows, (∀ r ∈ rows, ∃ i, rowSampleLookup reg g r = some (some i)) →
      ∃ l, ifaceResultsAux reg g geo rows = some l ∧
        l.length = rows.length * (rtColsList geo).length := by
  intro rows
  induction rows with
  | nil => intro _; exact ⟨[], rfl, by simp⟩
  | cons a rs ih =>
    intro hall
    obtain ⟨i, hi⟩ := hall a (List.mem_cons_self a rs)
    obtain ⟨l, hl, hlen⟩ := ih (fun r hr => hall r (List.mem_cons_of_mem a hr))
    refine ⟨ifaceRowRecs g geo a i ++ l, ?_, ?_⟩
    · simp only [ifaceResultsAux, hi, hl]
    · simp only [List.length_append, ifaceRowRecs, List.length_map,
        List.length_cons, hlen, Nat.succ_mul]
      omega

/-- Unpack a successful `ifaceProcessSubsamples` to its row loop. -/
theorem ifaceProcessSubsamples_ok (reg : SamplesIndex) (g : Grid)
    (geo : Geometry) (subIdx : List (SubKey × Nat))
    (h : ifaceProcessSubsamples reg g geo = .ok subIdx) :
    ifaceProcessSubsamplesAux reg g geo (subRowsList geo) [] = .ok subIdx := by
  unfold ifaceProcessSubsamples at h
  split at h
  · simp at h
  next row0 rest =>
    split at h
    · simp at h
    next c0 h0 =>
      split at h
      · simp at h
      · split at h
        · simp at h
        · exact h

/-- C4: for every worksheet the iface pipeline validates, the result stream
materializes and yields exactly `(subsample_rows.stop - subsample_rows.start)
* (result_type_columns.stop - result_type_columns.start)` records,
i.e. `result_count`. -/
theorem c4_result_count (reg : SamplesIndex) (g : Grid) (pw : ParsedWS)
    (h : parseWorksheet reg g = .ok pw) :
    ∃ l, ifaceResults reg g pw.geo = some l ∧
      l.length = result_count pw.geo := by
  unfold parseWorksheet at h
  split at h
  · simp at h
  next geo hg =>
    split at h
    · simp at h
    · simp at h
    next subIdx hs =>
      split at h
      · simp at h
      · simp at h
      next mtIdx hm =>
        split at h
        · simp at h
        · simp at h
        next rtmsIdx hr =>
          split at h
          next e he => simp [ifaceCheckEmptyRegions] at he
          next hn =>
            rw [PRes.ok.injEq] at h
            subst h
            have haux := ifaceProcessSubsamples_ok reg g geo subIdx hs
            have hall := ifaceProcessSubsamplesAux_lookup reg g geo
              (subRowsList geo) [] subIdx haux
            obtain ⟨l, hl, hlen⟩ := ifaceResultsAux_length reg g geo
              (subRowsList geo) hall
            refine ⟨l, hl, ?_⟩
            rw [hlen, result_count]
            simp [subRowsList, rtColsList, List.length_range']

/-- Witness for C4 at the `c9grid` worksheet. -/
theorem c4_result_count_witness :
    ∃ l, ifaceResults c4reg c9grid c4pw.geo = some l ∧
      l.length = result_count c4pw.geo :=
  c4_result_count c4reg c9grid c4pw (by decide)

/-! ### Claim C5: per-row check order -/

/-- C5: on a row that both duplicates an earlier row and names an
unregistered sample, the bases row check (missing → duplicate → sample
exists) reports the duplicate, while the iface row check (missing → sample
exists → duplicate) reports the unknown sample as the claim states; at
worksheet level both full loops stop earlier, at the *first* occurrence row,
with the unknown-sample error, because a duplicate row copies the earlier
row's (unknown) sample name. -/
theorem c5_check_order :
    basesSubsampleRowCheck ["s1"] [(1, [some "X", some "a"])] 2
        [some "X", some "a"] = some (.duplicateSubsample 2 1) ∧
    ifaceSubsampleRowCheck c4reg c5grid c5geo [([some "X", some "a"], 1)] 2 =
      .fail (.unknownSample 2) ∧
    computeGeometry c5grid = some c5geo ∧
    basesProcessSubsamples ["s1"] c5grid c5geo = some (.unknownSample 1) ∧
    ifaceProcessSubsamples c4reg c5grid c5geo = .fail (.unknownSample 1) := by
  decide

/-! ### Claim C7: cleared subsample axis -/

/-- C7: on a worksheet with no subsample row, the bases resolver yields the
empty subsample range `[3, 3)` at the end of the grid, not overlapping the
metadata rows `[1, 3)`, its row validation passes and its result stream is
empty — exactly the claim; iface `_compute_geometry` instead leaves the
exhausted loop variable as the start (`[2, 3)`), swallowing the last metadata
row, and the pipeline then fails with a missing-subsample-value error. -/
theorem c7_no_subsample_axis :
    basesResolveGeometry c7grid = some c7basesGeo ∧
    basesProcessSubsamples [] c7grid c7basesGeo = none ∧
    basesResults c7grid c7basesGeo = [] ∧
    computeGeometry c7grid = some c7ifaceGeo ∧
    parseWorksheet [] c7grid = .fail (.missingSubsampleValue 2) := by decide

/-! ### Claim C8: record metadata and empty-value marker -/

/-- C8: on `c8grid`, the bases record keeps exactly the metadata pairs whose
value is present (the absent `"mt2"` value is omitted) and carries the
explicit `none` marker for the absent result cell — exactly the claim; the
iface record keeps the absent `("mt2", none)` pair in its metadata set (no
restriction to present values), with the `""` marker for the absent cell. -/
theorem c8_metadata_and_value :
    basesResults c8grid c8geo =
      [{ sampleName := some "s1", subsample := [some "sub1"],
         resultType := some "rt1", metadata := [(some "mt1", "v1")],
         value := none }] ∧
    ifaceResults c4reg c8grid c8geo =
      some [{ row := 3, col := 3, sampleRowIdx := 1,
              subsample := [some "sub1"], resultType := some "rt1",
              metadataSet := [(some "mt1", some "v1"), (some "mt2", none)],
              value := "" }] ∧
    basesResolveGeometry c8grid = some c8geo ∧
    computeGeometry c8grid = some c8geo := by decide

/-! ### Claim C3: cross-worksheet duplicate detection -/

/-- Members of a prefix are exactly the elements at indices below the cut. -/
theorem list_mem_take_iff {α : Type} (l : List α) (j : Nat) (x : α) :
    x ∈ l.take j ↔ ∃ i, i < j ∧ l.get? i = some x := by
  constructor
  · intro hx
    obtain ⟨n, hn⟩ := List.get?_of_mem hx
    have hlt : n < (l.take j).length := List.get?_eq_some.mp hn |>.1
    rw [List.length_take] at hlt
    have hj : n < j := lt_of_lt_of_le hlt (min_le_left _ _)
    refine ⟨n, hj, ?_⟩
    rw [← List.get?_take hj]
    exact hn
  · rintro ⟨i, hij, hi⟩
    have : (l.take j).get? i = some x := by
      rw [List.get?_take hij]; exact hi
    exact List.get?_mem this

/-- The duplicate-check loop fires exactly when some worksheet collides with
one that precedes it (in `prev` or earlier in the remaining list). -/
theorem checkDuplicatesAux_iff :
    ∀ rest prev, checkDuplicatesAux prev rest = true ↔
      ∃ j y, rest.get? j = some y ∧
        ∃ x ∈ prev ++ rest.take j, wsCollide y x = true := by
  intro rest
  induction rest with
  | nil => intro prev; simp [checkDuplicatesAux]
  | cons w rs ih =>
    intro prev
    simp only [checkDuplicatesAux, Bool.or_eq_true, List.any_eq_true, ih]
    constructor
    · rintro (⟨x, hx, hc⟩ | ⟨j, y, hj, x, hx, hc⟩)
      · exact ⟨0, w, rfl, x, by simpa using hx, hc⟩
      · refine ⟨j + 1, y, by simpa using hj, x, ?_, hc⟩
        simpa [List.take_succ_cons, List.append_assoc] using hx
    · rintro ⟨j, y, hj, x, hx, hc⟩
      cases j with
      | zero =>
        simp only [List.get?_cons_zero, Option.some.injEq] at hj
        subst hj
        simp only [List.take_zero, List.append_nil] at hx
        exact Or.inl ⟨x, hx, hc⟩
      | succ j' =>
        right
        refine ⟨j', y, by simpa using hj, x, ?_, hc⟩
        simp only [List.take_succ_cons] at hx
        simpa [List.append_assoc] using hx

/-- C3 (counterexample): worksheets `c3gridA` and `c3gridB` each validate,
their only common (Subsample Key, RTMS Key) pair has a *blank* intersection
cell in `c3gridB` — so under the claim's populated-pairs index the
worksheets share nothing — yet `_check_duplicates` raises. -/
theorem c3_cross_duplicate_counterexample :
    parseWorkbook c4reg [c3gridA, c3gridB] = .ok [c3pw, c3pw] ∧
    check_duplicates [c3pw, c3pw] = true ∧
    ((specPopulatedPairIndex c3gridA c3pw).any (fun p =>
      (specPopulatedPairIndex c3gridB c3pw).any (fun q => q = p))) = false := by
  decide

/-- C3 (amended): for a workbook whose worksheets all pass validation,
`_check_duplicates` raises iff two worksheets (in workbook order) share some
Subsample Key *and* share some Result-Type/Metadata-Set Key — i.e. both
contain a common structural intersection — regardless of whether any
intersection cell is populated. -/
theorem c3_cross_duplicates_amended (reg : SamplesIndex) (gs : List Grid)
    (pws : List ParsedWS) (_hvalid : parseWorkbook reg gs = .ok pws) :
    check_duplicates pws = true ↔
      ∃ i j a b, i < j ∧ pws.get? i = some a ∧ pws.get? j = some b ∧
        (∃ k, k ∈ a.subIndex.map Prod.fst ∧ k ∈ b.subIndex.map Prod.fst) ∧
        (∃ k, k ∈ a.rtmsIndex.map Prod.fst ∧ k ∈ b.rtmsIndex.map Prod.fst) := by
  rw [check_duplicates, checkDuplicatesAux_iff]
  simp only [List.nil_append]
  constructor
  · rintro ⟨j, y, hj, x, hx, hc⟩
    obtain ⟨i, hij, hi⟩ := (list_mem_take_iff pws j x).mp hx
    simp only [wsCollide, Bool.and_eq_true, List.any_eq_true,
      decide_eq_true_eq] at hc
    obtain ⟨⟨e, he, f, hf, hef⟩, ⟨e', he', f', hf', hef'⟩⟩ := hc
    refine ⟨i, j, x, y, hij, hi, hj, ⟨e.1, ?_, ?_⟩, ⟨e'.1, ?_, ?_⟩⟩
    · exact List.mem_map.mpr ⟨f, hf, hef⟩
    · exact List.mem_map.mpr ⟨e, he, rfl⟩
    · exact List.mem_map.mpr ⟨f', hf', hef'⟩
    · exact List.mem_map.mpr ⟨e', he', rfl⟩
  · rintro ⟨i, j, a, b, hij, hi, hj, ⟨k, hka, hkb⟩, ⟨k', hk'a, hk'b⟩⟩
    refine ⟨j, b, hj, a, (list_mem_take_iff pws j a).mpr ⟨i, hij, hi⟩, ?_⟩
    simp only [wsCollide, Bool.and_eq_true, List.any_eq_true,
      decide_eq_true_eq]
    obtain ⟨e, he, hek⟩ := List.mem_map.mp hkb
    obtain ⟨f, hf, hfk⟩ := List.mem_map.mp hka
    obtain ⟨e', he', hek'⟩ := List.mem_map.mp hk'b
    obtain ⟨f', hf', hfk'⟩ := List.mem_map.mp hk'a
    exact ⟨⟨e, he, f, hf, by rw [hfk, hek]⟩,
           ⟨e', he', f', hf', by rw [hfk', hek']⟩⟩

/-- Witness for the amended C3 at a workbook of two identical (hence
colliding) valid worksheets. -/
theorem c3_cross_duplicates_amended_witness :
    check_duplicates [c3pw, c3pw] = true :=
  (c3_cross_duplicates_amended c4reg [c3gridA, c3gridA] [c3pw, c3pw]
    (by decide)).mpr
    ⟨0, 1, c3pw, c3pw, by decide, rfl, rfl,
     ⟨[some "s1", some "sub1"], by decide, by decide⟩,
     ⟨(some "rt1", []), by decide, by decide⟩⟩

/-! ### Claim C6: empty-region checks -/

/-- C6 (counterexample): on `c6grid`, whose metadata-type-row ×
subsample-column rectangle holds the populated cell A2, the init revision's
`_validate_empty_regions` raises its region error, but that error names no
cell — in particular it is not the cell-naming error the claim asserts — and
the iface revision's `_check_empty_regions` (a `pass` under a TODO) raises
nothing at all. -/
theorem c6_region_counterexample :
    initGeometry c6grid = some c6geo ∧
    rectHasNonEmptyCell c6grid c6geo = true ∧
    initValidateEmptyRegions c6grid c6geo = some .regionNotEmptyNoCell ∧
    initValidateEmptyRegions c6grid c6geo ≠ some (.nonEmptyRegion 1 0) ∧
    ifaceCheckEmptyRegions c6grid c6geo = none := by decide

/-- C6 (amended): the init revision's region check raises its (cell-less)
region error exactly when some cell of the metadata-type-rows ×
subsample-columns rectangle is non-empty, and never otherwise; the iface
revision's check never raises anything. -/
theorem c6_region_check_amended (g : Grid) (geo : Geometry) :
    (initValidateEmptyRegions g geo = some .regionNotEmptyNoCell ↔
      ∃ r ∈ mtRowsList geo, ∃ c ∈ subColsList geo, getCell g r c ≠ none) ∧
    ifaceCheckEmptyRegions g geo = none := by
  constructor
  · rw [initValidateEmptyRegions]
    by_cases hall : (mtRowsList geo).all (fun r => (subColsList geo).all
        (fun c => (getCell g r c).isNone)) = true
    · rw [if_pos hall]
      simp only [List.all_eq_true, Option.isNone_iff_eq_none] at hall
      constructor
      · intro hc; exact absurd hc (by simp)
      · rintro ⟨r, hr, c, hc, hne⟩
        exact absurd (hall r hr c hc) hne
    · rw [if_neg hall]
      simp only [List.all_eq_true, Option.isNone_iff_eq_none] at hall
      push_neg at hall
      obtain ⟨r, hr, c, hc, hne⟩ := hall
      exact ⟨fun _ => ⟨r, hr, c, hc, hne⟩, fun _ => rfl⟩
  · rfl

end Geochem
